import Mathlib

/-!
Shallow embedding of the kube-node-pool remote-execution and cluster-bootstrap
core (src/server/kube/ssh.ts, src/server/kube/index.ts and the SSHClient
module) together with theorems settling the specification claims.

Remote effects are modelled by explicit outcome environments: each network
round trip (connect, exec, upload) is represented by the outcome the remote
side produces, and every source function becomes a pure Lean function of that
environment, translated branch for branch from the TypeScript.
-/

namespace KubeNodePool

/-! ## JS helpers

JavaScript truthiness on optional strings: `undefined` and the empty string
are falsy. -/

/-- Truthiness of an optional string field, as tested by `if (x)` in the
source: absent or empty is falsy. -/
def optTruthy : Option String → Bool
  | some s => s != ""
  | none => false

/-- The JS idiom `x || dflt` on an optional string: the default is taken when
the field is absent or empty. -/
def jsOrElse : Option String → String → String
  | some s, dflt => if s == "" then dflt else s
  | none, dflt => dflt

/-! ## ssh.ts: SSHConfig, createConnectionConfig, execSSHInternal, withRetry -/

/-- `SSHConfig` from src/server/kube/ssh.ts. -/
structure SSHConfig where
  host : String
  port : Option Nat
  username : String
  password : Option String
  privateKey : Option String
  passphrase : Option String

/-- The ssh2 connection object assembled by `createConnectionConfig`
(src/server/kube/ssh.ts).  The constant `algorithms` table is omitted;
`none` in `password` / `privateKey` / `passphrase` means the field was not
set on the object. -/
structure ConnectionConfig where
  host : String
  port : Nat
  username : String
  readyTimeout : Nat
  password : Option String
  privateKey : Option String
  passphrase : Option String

/-- `createConnectionConfig` from src/server/kube/ssh.ts.  Note the source
tests `config.password` FIRST and `config.privateKey` only in the
`else if`; `config.port || 22` maps port 0 or absent to 22. -/
def createConnectionConfig (config : SSHConfig) : ConnectionConfig :=
  let base : ConnectionConfig :=
    { host := config.host
      port := match config.port with
              | some p => if p == 0 then 22 else p
              | none => 22
      username := config.username
      readyTimeout := 60000
      password := none, privateKey := none, passphrase := none }
  if optTruthy config.password then
    { base with password := config.password }
  else if optTruthy config.privateKey then
    if optTruthy config.passphrase then
      { base with privateKey := config.privateKey, passphrase := config.passphrase }
    else
      { base with privateKey := config.privateKey }
  else base

/-- The observable outcome of one `execSSHInternal` run: which of the
sequential failure points fired, or the command stream closing with an exit
code and the collected output. -/
inductive ExecSSHEvent where
  | connectThrow (msg : String)
  | connError (msg : String)
  | execError (msg : String)
  | closed (stdout stderr : String) (code : Int)

/-- `execSSHInternal` from src/server/kube/ssh.ts: a rejected promise is
`Except.error`, a resolved one `Except.ok` carrying stdout.  A non-zero exit
code REJECTS with the code and stderr in the message. -/
def execSSHInternal : ExecSSHEvent → Except String String
  | .connectThrow msg => .error ("连接失败: " ++ msg)
  | .connError msg => .error msg
  | .execError msg => .error ("执行命令失败: " ++ msg)
  | .closed stdout stderr code =>
      if code == 0 then .ok stdout
      else .error ("命令执行失败，退出码 " ++ toString code ++ ": " ++ stderr)

/-- The exhausted-retry message thrown by `withRetry`
(src/server/kube/ssh.ts line 83). -/
def retryFailMsg (operationName : String) (maxRetries : Nat) (lastMsg : String) : String :=
  operationName ++ " 失败，已重试 " ++ toString maxRetries ++ " 次: " ++ lastMsg

/-- The loop of `withRetry` (src/server/kube/ssh.ts).  `fn j` is the outcome
of the j-th invocation of the wrapped operation (attempts are numbered from
1).  The fuel argument `remaining` counts the loop iterations still allowed:
the source loop runs `attempt = 1 .. maxRetries`.  The second component of
the result counts how many times `fn` was invoked.  `lastMsg` mirrors the
source's `lastError`; the source leaves it undefined before the first
attempt (it is only read after at least one failed attempt). -/
def withRetryGo (fn : Nat → Except String α) (maxRetries : Nat) (operationName : String) :
    Nat → Nat → String → Nat → Except String α × Nat
  | 0, _attempt, lastMsg, calls =>
      (.error (retryFailMsg operationName maxRetries lastMsg), calls)
  | remaining + 1, attempt, _lastMsg, calls =>
      match fn attempt with
      | .ok v => (.ok v, calls + 1)
      | .error e => withRetryGo fn maxRetries operationName remaining (attempt + 1) e (calls + 1)

/-- `withRetry` from src/server/kube/ssh.ts, instrumented with the number of
invocations of the wrapped operation. -/
def withRetry (fn : Nat → Except String α) (maxRetries : Nat) (operationName : String) :
    Except String α × Nat :=
  withRetryGo fn maxRetries operationName maxRetries 1 "" 0

/-! ## SSHClient module: ExecutionResult, executeCommand, executeWithRetry,
buildConnectionConfig -/

/-- `ExecutionResult` from the SSHClient module. -/
structure ExecutionResult where
  success : Bool
  message : String
  stdout : String
  stderr : String
  exitCode : Int
  deriving DecidableEq

/-- The observable outcome of one `SSHClient.executeCommand` run. -/
inductive ClientExecEvent where
  | configError (msg : String)
  | connError (msg : String)
  | execError (msg : String)
  | timeoutFired (stdoutSoFar : String)
  | closed (stdout stderr : String) (code : Int)

/-- `SSHClient.executeCommand` from the SSHClient module: every outcome,
including connection failure and a non-zero exit code, is RESOLVED into an
`ExecutionResult`; the promise never rejects. -/
def executeCommand : ClientExecEvent → ExecutionResult
  | .configError msg =>
      { success := false, message := msg, stdout := "", stderr := "", exitCode := -1 }
  | .connError msg =>
      { success := false, message := "SSH连接失败: " ++ msg, stdout := "", stderr := "", exitCode := -1 }
  | .execError msg =>
      { success := false, message := "执行失败: " ++ msg, stdout := "", stderr := "", exitCode := -1 }
  | .timeoutFired stdoutSoFar =>
      { success := false, message := "命令执行超时", stdout := stdoutSoFar,
        stderr := "Command timeout", exitCode := -1 }
  | .closed stdout stderr code =>
      { success := code == 0
        message := if code == 0 then "执行成功" else "执行失败，退出码: " ++ toString code
        stdout := stdout, stderr := stderr, exitCode := code }

/-- The loop of `SSHClient.executeWithRetry`.  `attempts j` is the
`ExecutionResult` of the j-th call to `executeOnce` (numbered from 1);
`remaining` is loop fuel (the source loop runs `attempt = 1 .. retries`);
`lastError` mirrors the source variable (initialised to the empty string);
the second component counts calls to `executeOnce`. -/
def executeWithRetryGo (attempts : Nat → ExecutionResult) (retries : Nat) :
    Nat → Nat → String → Nat → ExecutionResult × Nat
  | 0, _attempt, lastError, calls =>
      ({ success := false
         message := "执行失败（已重试 " ++ toString retries ++ " 次）: " ++ lastError
         stdout := "", stderr := "", exitCode := -1 }, calls)
  | remaining + 1, attempt, _lastError, calls =>
      let result := attempts attempt
      if result.success then (result, calls + 1)
      else executeWithRetryGo attempts retries remaining (attempt + 1) result.message (calls + 1)

/-- `SSHClient.executeWithRetry` from the SSHClient module, instrumented with
the number of per-attempt executions. -/
def executeWithRetry (attempts : Nat → ExecutionResult) (retries : Nat) :
    ExecutionResult × Nat :=
  executeWithRetryGo attempts retries retries 1 "" 0

/-- The authentication part of the SSHClient configuration. -/
structure ClientAuthConfig where
  sshPubKey : Option String
  sshPubKeyPath : Option String
  sshPasswd : Option String

/-- The ssh2 connection object assembled by
`SSHClient.buildConnectionConfig`. -/
structure ClientConnConfig where
  host : String
  port : Nat
  username : String
  readyTimeout : Nat
  keepaliveInterval : Nat
  privateKey : Option String
  password : Option String

/-- `SSHClient.buildConnectionConfig` from the SSHClient module.  `readFile`
models `readFileSync` on the key path.  Priority: key material
(`sshPubKey`), then key file path (`sshPubKeyPath`), then password
(`sshPasswd`); with none of the three it throws. -/
def buildConnectionConfig (serverIP : String) (sshPort : Nat) (sshUser : String)
    (authConfig : ClientAuthConfig) (readFile : String → String) :
    Except String ClientConnConfig :=
  let base : ClientConnConfig :=
    { host := serverIP, port := sshPort, username := sshUser
      readyTimeout := 60000, keepaliveInterval := 10000
      privateKey := none, password := none }
  if optTruthy authConfig.sshPubKey then
    .ok { base with privateKey := authConfig.sshPubKey }
  else if optTruthy authConfig.sshPubKeyPath then
    .ok { base with privateKey := some (readFile (authConfig.sshPubKeyPath.getD "")) }
  else if optTruthy authConfig.sshPasswd then
    .ok { base with password := authConfig.sshPasswd }
  else
    .error "未提供SSH认证信息（密钥或密码）"

/-! ## index.ts: join rewrite, setupNodes, joinCluster, initControlPlane,
getNodes -/

/-- Whether `pat` is an initial segment of `s` (character lists). -/
def listStartsWith : List Char → List Char → Bool
  | [], _ => true
  | _ :: _, [] => false
  | a :: as, b :: bs => a == b && listStartsWith as bs

/-- Replace the FIRST occurrence of `pat` in the subject by `rep`, the
semantics of JavaScript `String.replace` with a non-global literal regex:
the subject is returned unchanged when `pat` does not occur. -/
def listReplaceFirst (pat rep : List Char) : List Char → List Char
  | [] => if pat == [] then rep else []
  | c :: cs =>
      if listStartsWith pat (c :: cs) then rep ++ (c :: cs).drop pat.length
      else c :: listReplaceFirst pat rep cs

/-- First-occurrence string replacement, lifted to `String`. -/
def replaceFirstStr (s pat rep : String) : String :=
  String.mk (listReplaceFirst pat.data rep.data s.data)

/-- The join-command rewrite performed inside `joinCluster`
(src/server/kube/index.ts lines 272-275): `.replace(/kubeadm join/, ...)`
replaces the first occurrence of `kubeadm join`. -/
def commandWithCriSocket (joinCommand : String) : String :=
  replaceFirstStr joinCommand "kubeadm join"
    "sudo kubeadm join --cri-socket=/run/cri-dockerd.sock"

/-- `SetupResult` from src/server/kube/index.ts. -/
structure SetupResult where
  host : String
  success : Bool
  error : Option String
  deriving DecidableEq

/-- `JoinResult` from src/server/kube/index.ts. -/
structure JoinResult where
  host : String
  success : Bool
  error : Option String
  deriving DecidableEq

/-- `setupNodes` from src/server/kube/index.ts.  `uploadAndExec config`
is the outcome of `uploadAndExecScript(config, setupScript, '/tmp/setup-k8s.sh')`
for that host; each per-host task catches its own failure and reports it in
its own slot, and `Promise.all` keeps the input order. -/
def setupNodes (uploadAndExec : SSHConfig → Except String String)
    (configs : List SSHConfig) : List SetupResult :=
  configs.map fun config =>
    match uploadAndExec config with
    | .ok _ => { host := config.host, success := true, error := none }
    | .error e => { host := config.host, success := false, error := some e }

/-- `joinCluster` from src/server/kube/index.ts.  `exec config cmd` is the
outcome of `execSSH(config, cmd)`; the executed command is the rewritten
join command. -/
def joinCluster (exec : SSHConfig → String → Except String String)
    (configs : List SSHConfig) (joinCommand : String) : List JoinResult :=
  configs.map fun config =>
    match exec config (commandWithCriSocket joinCommand) with
    | .ok _ => { host := config.host, success := true, error := none }
    | .error e => { host := config.host, success := false, error := some e }

/-- The outcomes of the five sequential remote steps of `initControlPlane`,
in source order: upload of the kubeadm config, `kubeadm init`,
`cat /etc/kubernetes/admin.conf`, `kubeadm token create
--print-join-command`, and `kubeadm init phase upload-certs`. -/
structure InitEnv where
  uploadConfig : Except String Unit
  initCmd : Except String String
  catAdminConf : Except String String
  tokenCreate : Except String String
  uploadCerts : Except String String

/-- `InitResult` from src/server/kube/index.ts. -/
structure InitResult where
  success : Bool
  kubeconfig : Option String
  joinCommand : Option String
  controlPlaneJoinCommand : Option String
  error : Option String
  deriving DecidableEq

/-- The value returned by `initControlPlane` together with the
`console.warn` diagnostics it printed. -/
structure InitRun where
  result : InitResult
  warnings : List String
  deriving DecidableEq

/-- `initControlPlane` from src/server/kube/index.ts, translated branch for
branch.  The upload failure and the `cat admin.conf` failure reach the OUTER
catch (success = false); the `kubeadm init` failure is caught by its own
inner try (also success = false); the token-creation failure is caught and
returns success = true with a diagnostic in `error`; the upload-certs
failure is caught, logged via `console.warn`, and leaves
`controlPlaneJoinCommand` absent with no error on the result. -/
def initControlPlane (env : InitEnv) : InitRun :=
  match env.uploadConfig with
  | .error e =>
      ⟨{ success := false, kubeconfig := none, joinCommand := none
         controlPlaneJoinCommand := none, error := some e }, []⟩
  | .ok _ =>
    match env.initCmd with
    | .error e =>
        ⟨{ success := false, kubeconfig := none, joinCommand := none
           controlPlaneJoinCommand := none, error := some e }, []⟩
    | .ok _ =>
      match env.catAdminConf with
      | .error e =>
          ⟨{ success := false, kubeconfig := none, joinCommand := none
             controlPlaneJoinCommand := none, error := some e }, []⟩
      | .ok kubeconfig =>
        match env.tokenCreate with
        | .error e =>
            ⟨{ success := true, kubeconfig := some kubeconfig, joinCommand := none
               controlPlaneJoinCommand := none
               error := some ("初始化成功但获取 join 命令失败: " ++ e) }, []⟩
        | .ok joinCommand =>
          match env.uploadCerts with
          | .error e =>
              ⟨{ success := true, kubeconfig := some kubeconfig
                 joinCommand := some joinCommand
                 controlPlaneJoinCommand := none, error := none },
               ["获取 control-plane join 命令失败: " ++ e]⟩
          | .ok certKeyOutput =>
            let certificateKey := certKeyOutput.trim
            let controlPlaneJoinCommand :=
              if certificateKey != "" && joinCommand != "" then
                some (joinCommand ++ " --control-plane --certificate-key " ++ certificateKey)
              else none
            ⟨{ success := true, kubeconfig := some kubeconfig
               joinCommand := some joinCommand
               controlPlaneJoinCommand := controlPlaneJoinCommand, error := none }, []⟩

/-- A node condition as consumed by `getNodes`. -/
structure NodeCondition where
  type : String
  status : String

/-- A node address as consumed by `getNodes`. -/
structure NodeAddress where
  type : String
  address : String

/-- The slice of a Kubernetes node record that `getNodes` reads. -/
structure K8sNode where
  name : Option String
  labels : List (String × String)
  conditions : List NodeCondition
  kubeletVersion : Option String
  addresses : List NodeAddress

/-- `NodeStatus` from src/server/kube/index.ts. -/
structure NodeStatus where
  name : String
  status : String
  roles : List String
  version : String
  internalIP : String
  deriving DecidableEq

/-- Truthiness of `labels[key]` in the source: present AND non-empty. -/
def labelTruthy (labels : List (String × String)) (key : String) : Bool :=
  optTruthy (labels.lookup key)

/-- The per-node mapping inside `getNodes` (src/server/kube/index.ts lines
330-365), translated branch for branch, JS truthiness included. -/
def nodeStatusOf (node : K8sNode) : NodeStatus :=
  let readyCondition := node.conditions.find? fun c => c.type == "Ready"
  let status := match readyCondition with
    | some c => if c.status == "True" then "Ready" else "NotReady"
    | none => "NotReady"
  let roles0 : List String :=
    (if labelTruthy node.labels "node-role.kubernetes.io/control-plane"
     then ["control-plane"] else []) ++
    (if labelTruthy node.labels "node-role.kubernetes.io/master"
     then ["master"] else [])
  let roles :=
    if !(roles0.contains "control-plane") && !(roles0.contains "master")
    then roles0 ++ ["worker"] else roles0
  { name := jsOrElse node.name ""
    status := status
    roles := roles
    version := jsOrElse node.kubeletVersion "unknown"
    internalIP :=
      jsOrElse ((node.addresses.find? fun a => a.type == "InternalIP").map NodeAddress.address) "" }

/-- `getNodes` from src/server/kube/index.ts: `items` is the node list
returned by the external cluster query. -/
def getNodes (items : List K8sNode) : List NodeStatus :=
  items.map nodeStatusOf

/-! ## Retry-loop lemmas (shared) -/

theorem withRetryGo_allFail (fn : Nat → Except String α) (N : Nat) (op : String)
    (es : Nat → String) :
    ∀ (remaining : Nat), ∀ (attempt : Nat) (lastMsg : String) (calls : Nat),
      (∀ j, attempt ≤ j → j ≤ attempt + remaining → fn j = Except.error (es j)) →
      withRetryGo fn N op (remaining + 1) attempt lastMsg calls =
        (Except.error (retryFailMsg op N (es (attempt + remaining))), calls + (remaining + 1)) := by
  intro remaining
  induction remaining with
  | zero =>
      intro attempt lastMsg calls h
      have h1 : fn attempt = Except.error (es attempt) := h attempt le_rfl (by omega)
      simp [withRetryGo, h1]
  | succ r ih =>
      intro attempt lastMsg calls h
      have h1 : fn attempt = Except.error (es attempt) := h attempt le_rfl (by omega)
      have ihx := ih (attempt + 1) (es attempt) (calls + 1)
        (fun j hj1 hj2 => h j (by omega) (by omega))
      have e1 : attempt + 1 + r = attempt + (r + 1) := by omega
      have e2 : calls + 1 + (r + 1) = calls + (r + 1 + 1) := by omega
      rw [e1, e2] at ihx
      simp only [withRetryGo, h1]
      exact ihx

theorem withRetryGo_succAt (fn : Nat → Except String α) (N : Nat) (op : String)
    (es : Nat → String) (k : Nat) (v : α) :
    ∀ (remaining : Nat), ∀ (attempt : Nat) (lastMsg : String) (calls : Nat),
      attempt ≤ k → k ≤ attempt + remaining →
      (∀ j, attempt ≤ j → j < k → fn j = Except.error (es j)) →
      fn k = Except.ok v →
      withRetryGo fn N op (remaining + 1) attempt lastMsg calls =
        (Except.ok v, calls + (k + 1 - attempt)) := by
  intro remaining
  induction remaining with
  | zero =>
      intro attempt lastMsg calls hak hka hf hok
      have hek : attempt = k := by omega
      subst hek
      have e1 : attempt + 1 - attempt = 1 := by omega
      simp [withRetryGo, hok, e1]
  | succ r ih =>
      intro attempt lastMsg calls hak hka hf hok
      by_cases hcase : attempt = k
      · subst hcase
        have e1 : attempt + 1 - attempt = 1 := by omega
        simp [withRetryGo, hok, e1]
      · have hlt : attempt < k := by omega
        have h1 : fn attempt = Except.error (es attempt) := hf attempt le_rfl hlt
        have ihx := ih (attempt + 1) (es attempt) (calls + 1)
          (by omega) (by omega) (fun j hj1 hj2 => hf j (by omega) hj2) hok
        have e2 : calls + 1 + (k + 1 - (attempt + 1)) = calls + (k + 1 - attempt) := by omega
        rw [e2] at ihx
        simp only [withRetryGo, h1]
        exact ihx

theorem executeWithRetryGo_allFail (attempts : Nat → ExecutionResult) (N : Nat) :
    ∀ (remaining : Nat), ∀ (attempt : Nat) (lastError : String) (calls : Nat),
      (∀ j, attempt ≤ j → j ≤ attempt + remaining → (attempts j).success = false) →
      executeWithRetryGo attempts N (remaining + 1) attempt lastError calls =
        ({ success := false
           message := "执行失败（已重试 " ++ toString N ++ " 次）: " ++ (attempts (attempt + remaining)).message
           stdout := "", stderr := "", exitCode := -1 }, calls + (remaining + 1)) := by
  intro remaining
  induction remaining with
  | zero =>
      intro attempt lastError calls h
      have h1 : (attempts attempt).success = false := h attempt le_rfl (by omega)
      simp [executeWithRetryGo, h1]
  | succ r ih =>
      intro attempt lastError calls h
      have h1 : (attempts attempt).success = false := h attempt le_rfl (by omega)
      have ihx := ih (attempt + 1) (attempts attempt).message (calls + 1)
        (fun j hj1 hj2 => h j (by omega) (by omega))
      have e1 : attempt + 1 + r = attempt + (r + 1) := by omega
      have e2 : calls + 1 + (r + 1) = calls + (r + 1 + 1) := by omega
      rw [e1, e2] at ihx
      simp only [executeWithRetryGo, h1, if_false, Bool.false_eq_true]
      exact ihx

theorem executeWithRetryGo_succAt (attempts : Nat → ExecutionResult) (N k : Nat) :
    ∀ (remaining : Nat), ∀ (attempt : Nat) (lastError : String) (calls : Nat),
      attempt ≤ k → k ≤ attempt + remaining →
      (∀ j, attempt ≤ j → j < k → (attempts j).success = false) →
      (attempts k).success = true →
      executeWithRetryGo attempts N (remaining + 1) attempt lastError calls =
        (attempts k, calls + (k + 1 - attempt)) := by
  intro remaining
  induction remaining with
  | zero =>
      intro attempt lastError calls hak hka hf hok
      have hek : attempt = k := by omega
      subst hek
      have e1 : attempt + 1 - attempt = 1 := by omega
      simp [executeWithRetryGo, hok, e1]
  | succ r ih =>
      intro attempt lastError calls hak hka hf hok
      by_cases hcase : attempt = k
      · subst hcase
        have e1 : attempt + 1 - attempt = 1 := by omega
        simp [executeWithRetryGo, hok, e1]
      · have hlt : attempt < k := by omega
        have h1 : (attempts attempt).success = false := hf attempt le_rfl hlt
        have ihx := ih (attempt + 1) (attempts attempt).message (calls + 1)
          (by omega) (by omega) (fun j hj1 hj2 => hf j (by omega) hj2) hok
        have e2 : calls + 1 + (k + 1 - (attempt + 1)) = calls + (k + 1 - attempt) := by omega
        rw [e2] at ihx
        simp only [executeWithRetryGo, h1, if_false, Bool.false_eq_true]
        exact ihx

/-! ## Claims about the retry executors -/

/-- Claim C2: for `maxAttempts = N` and an operation failing on every
attempt, both retry executors invoke the operation exactly N times, and the
final thrown/returned message records N and the last underlying failure. -/
theorem claim_C2 (fn : Nat → Except String α) (attempts : Nat → ExecutionResult)
    (es : Nat → String) (N : Nat) (op : String)
    (hN : 1 ≤ N)
    (hfn : ∀ j, 1 ≤ j → j ≤ N → fn j = Except.error (es j))
    (hatt : ∀ j, 1 ≤ j → j ≤ N → (attempts j).success = false) :
    withRetry fn N op =
      (Except.error (op ++ " 失败，已重试 " ++ toString N ++ " 次: " ++ es N), N) ∧
    executeWithRetry attempts N =
      ({ success := false
         message := "执行失败（已重试 " ++ toString N ++ " 次）: " ++ (attempts N).message
         stdout := "", stderr := "", exitCode := -1 }, N) := by
  obtain ⟨M, rfl⟩ : ∃ M, N = M + 1 := ⟨N - 1, by omega⟩
  constructor
  · have h := withRetryGo_allFail fn (M + 1) op es M 1 "" 0
      (fun j hj1 hj2 => hfn j hj1 (by omega))
    have e1 : 1 + M = M + 1 := by omega
    rw [e1] at h
    simpa [withRetry, retryFailMsg] using h
  · have h := executeWithRetryGo_allFail attempts (M + 1) M 1 "" 0
      (fun j hj1 hj2 => hatt j hj1 (by omega))
    have e1 : 1 + M = M + 1 := by omega
    rw [e1] at h
    simpa [executeWithRetry] using h

/-- Claim C2 witness: a concrete always-failing operation with N = 3. -/
theorem claim_C2_witness :
    withRetry (fun j => (Except.error ("e" ++ toString j) : Except String Nat)) 3 "op" =
      (Except.error ("op" ++ " 失败，已重试 " ++ toString 3 ++ " 次: " ++ ("e" ++ toString 3)), 3) ∧
    executeWithRetry (fun j => { success := false, message := "m" ++ toString j
                                 stdout := "s", stderr := "t", exitCode := 9 }) 3 =
      ({ success := false
         message := "执行失败（已重试 " ++ toString 3 ++ " 次）: " ++ ("m" ++ toString 3)
         stdout := "", stderr := "", exitCode := -1 }, 3) :=
  claim_C2 (fun j => (Except.error ("e" ++ toString j) : Except String Nat))
    (fun j => { success := false, message := "m" ++ toString j
                stdout := "s", stderr := "t", exitCode := 9 })
    (fun j => "e" ++ toString j) 3 "op" (by decide)
    (fun _ _ _ => rfl) (fun _ _ _ => rfl)

/-- Claim C7: for an operation failing on attempts 1..k-1 and succeeding on
attempt k ≤ N, both retry executors return exactly the attempt-k success
result and make exactly k attempts (no attempt k+1). -/
theorem claim_C7 (fn : Nat → Except String α) (attempts : Nat → ExecutionResult)
    (es : Nat → String) (N k : Nat) (v : α) (op : String)
    (hk1 : 1 ≤ k) (hkN : k ≤ N)
    (hfail : ∀ j, 1 ≤ j → j < k → fn j = Except.error (es j))
    (hok : fn k = Except.ok v)
    (hattf : ∀ j, 1 ≤ j → j < k → (attempts j).success = false)
    (hatts : (attempts k).success = true) :
    withRetry fn N op = (Except.ok v, k) ∧
    executeWithRetry attempts N = (attempts k, k) := by
  obtain ⟨M, rfl⟩ : ∃ M, N = M + 1 := ⟨N - 1, by omega⟩
  constructor
  · have h := withRetryGo_succAt fn (M + 1) op es k v M 1 "" 0
      hk1 (by omega) (fun j hj1 hj2 => hfail j hj1 hj2) hok
    have e1 : k + 1 - 1 = k := by omega
    rw [e1] at h
    simpa [withRetry] using h
  · have h := executeWithRetryGo_succAt attempts (M + 1) k M 1 "" 0
      hk1 (by omega) (fun j hj1 hj2 => hattf j hj1 hj2) hatts
    have e1 : k + 1 - 1 = k := by omega
    rw [e1] at h
    simpa [executeWithRetry] using h

/-- Claim C7 witness: failure on attempt 1, success on attempt 2, N = 3. -/
theorem claim_C7_witness :
    withRetry (fun j => if j == 2 then (Except.ok 42 : Except String Nat)
                        else Except.error "f") 3 "op" = (Except.ok 42, 2) ∧
    executeWithRetry (fun j => { success := j == 2, message := "m" ++ toString j
                                 stdout := "s", stderr := "t", exitCode := 0 }) 3 =
      ({ success := (2 : Nat) == 2, message := "m" ++ toString 2
         stdout := "s", stderr := "t", exitCode := 0 }, 2) :=
  claim_C7 (fun j => if j == 2 then (Except.ok 42 : Except String Nat) else Except.error "f")
    (fun j => { success := j == 2, message := "m" ++ toString j
                stdout := "s", stderr := "t", exitCode := 0 })
    (fun _ => "f") 3 2 42 "op" (by decide) (by decide)
    (fun j hj1 hj2 => by
      have : j = 1 := by omega
      subst this
      rfl)
    rfl
    (fun j hj1 hj2 => by
      have : j = 1 := by omega
      subst this
      rfl)
    rfl

/-- Claim C8 counterexample: with every attempt producing stdout `x`,
stderr `y`, exit code 7, the retained exhaustion result is NOT the last
attempt's result — its stdout/stderr are empty and its exit code is -1. -/
theorem claim_C8_counterexample :
    (executeWithRetry (fun _ => { success := false, message := "m"
                                  stdout := "x", stderr := "y", exitCode := 7 }) 2).1 ≠
      ({ success := false, message := "m", stdout := "x", stderr := "y", exitCode := 7 } :
        ExecutionResult) ∧
    (executeWithRetry (fun _ => { success := false, message := "m"
                                  stdout := "x", stderr := "y", exitCode := 7 }) 2).1.stdout = "" ∧
    (executeWithRetry (fun _ => { success := false, message := "m"
                                  stdout := "x", stderr := "y", exitCode := 7 }) 2).1.exitCode = -1 := by
  refine ⟨?_, rfl, rfl⟩
  decide

/-- Claim C8 (amended): the retained result is the succeeding attempt's
result on success, but on exhaustion it is a SYNTHETIC failed result —
message embedding the attempt count and the last attempt's message, with
empty stdout, empty stderr and exit code -1 — not the last attempt's raw
result. -/
theorem claim_C8 (attempts : Nat → ExecutionResult) (N k : Nat) :
    (1 ≤ k → k ≤ N → (∀ j, 1 ≤ j → j < k → (attempts j).success = false) →
      (attempts k).success = true →
      (executeWithRetry attempts N).1 = attempts k) ∧
    (1 ≤ N → (∀ j, 1 ≤ j → j ≤ N → (attempts j).success = false) →
      (executeWithRetry attempts N).1 =
        { success := false
          message := "执行失败（已重试 " ++ toString N ++ " 次）: " ++ (attempts N).message
          stdout := "", stderr := "", exitCode := -1 }) := by
  constructor
  · intro hk1 hkN hf hs
    obtain ⟨M, rfl⟩ : ∃ M, N = M + 1 := ⟨N - 1, by omega⟩
    have h := executeWithRetryGo_succAt attempts (M + 1) k M 1 "" 0
      hk1 (by omega) (fun j hj1 hj2 => hf j hj1 hj2) hs
    simpa [executeWithRetry] using congrArg Prod.fst h
  · intro hN hf
    obtain ⟨M, rfl⟩ : ∃ M, N = M + 1 := ⟨N - 1, by omega⟩
    have h := executeWithRetryGo_allFail attempts (M + 1) M 1 "" 0
      (fun j hj1 hj2 => hf j hj1 (by omega))
    have e1 : 1 + M = M + 1 := by omega
    rw [e1] at h
    simpa [executeWithRetry] using congrArg Prod.fst h

/-- Claim C8 witness: both branches at concrete inputs. -/
theorem claim_C8_witness :
    (executeWithRetry (fun j => { success := j == 2, message := "m" ++ toString j
                                  stdout := "s", stderr := "t", exitCode := 0 }) 3).1 =
      { success := (2 : Nat) == 2, message := "m" ++ toString 2
        stdout := "s", stderr := "t", exitCode := 0 } ∧
    (executeWithRetry (fun j => { success := false, message := "m" ++ toString j
                                  stdout := "s", stderr := "t", exitCode := 9 }) 2).1 =
      { success := false
        message := "执行失败（已重试 " ++ toString 2 ++ " 次）: " ++ ("m" ++ toString 2)
        stdout := "", stderr := "", exitCode := -1 } :=
  ⟨(claim_C8 (fun j => { success := j == 2, message := "m" ++ toString j
                         stdout := "s", stderr := "t", exitCode := 0 }) 3 2).1
      (by decide) (by decide)
      (fun j hj1 hj2 => by
        have : j = 1 := by omega
        subst this
        rfl)
      rfl,
   (claim_C8 (fun j => { success := false, message := "m" ++ toString j
                         stdout := "s", stderr := "t", exitCode := 9 }) 2 1).2
      (by decide) (fun _ _ _ => rfl)⟩

/-! ## Claims about initControlPlane -/

/-- Claim C1 counterexample: when init succeeds but the admin-credentials
fetch (`sudo cat /etc/kubernetes/admin.conf`) fails, `initControlPlane`
returns `success = false` — the failure is fatal, contradicting the claim
that steps 2 and 3 are both non-fatal. -/
theorem claim_C1_counterexample :
    (initControlPlane { uploadConfig := Except.ok (), initCmd := Except.ok "out"
                        catAdminConf := Except.error "boom", tokenCreate := Except.ok "tok"
                        uploadCerts := Except.ok "ck" }).result.success = false ∧
    (initControlPlane { uploadConfig := Except.ok (), initCmd := Except.ok "out"
                        catAdminConf := Except.error "boom", tokenCreate := Except.ok "tok"
                        uploadCerts := Except.ok "ck" }).result.error = some "boom" :=
  ⟨rfl, rfl⟩

/-- Claim C1 (amended): after a successful init, only a failure of the
join-token request (step 3) is non-fatal — `initControlPlane` then returns
`success = true` with the credentials present, `joinCommand` absent and a
diagnostic message; a failure of the admin-credentials fetch (step 2)
is fatal and yields `success = false` with that failure's message. -/
theorem claim_C1 (initOut creds e : String) (tok cert : Except String String) :
    (initControlPlane { uploadConfig := Except.ok (), initCmd := Except.ok initOut
                        catAdminConf := Except.ok creds, tokenCreate := Except.error e
                        uploadCerts := cert }).result =
      { success := true, kubeconfig := some creds, joinCommand := none
        controlPlaneJoinCommand := none
        error := some ("初始化成功但获取 join 命令失败: " ++ e) } ∧
    (initControlPlane { uploadConfig := Except.ok (), initCmd := Except.ok initOut
                        catAdminConf := Except.error e, tokenCreate := tok
                        uploadCerts := cert }).result =
      { success := false, kubeconfig := none, joinCommand := none
        controlPlaneJoinCommand := none, error := some e } :=
  ⟨rfl, rfl⟩

/-- Claim C4 counterexample: when only the certificate-upload sub-step
fails, the RETURNED result carries no diagnostic at all (`error = none`),
contradicting the claim that the returned report includes a diagnostic
referencing the failure. -/
theorem claim_C4_counterexample :
    (initControlPlane { uploadConfig := Except.ok (), initCmd := Except.ok "i"
                        catAdminConf := Except.ok "k", tokenCreate := Except.ok "jc"
                        uploadCerts := Except.error "certfail" }).result =
      { success := true, kubeconfig := some "k", joinCommand := some "jc"
        controlPlaneJoinCommand := none, error := none } ∧
    (initControlPlane { uploadConfig := Except.ok (), initCmd := Except.ok "i"
                        catAdminConf := Except.ok "k", tokenCreate := Except.ok "jc"
                        uploadCerts := Except.error "certfail" }).result.error = none :=
  ⟨rfl, rfl⟩

/-- Claim C4 (amended): when init, credentials fetch and token request
succeed but the certificate upload fails, `initControlPlane` returns
`success = true` with `joinCommand` present, `controlPlaneJoinCommand`
absent and NO error on the returned result; the diagnostic referencing the
failure is emitted as a console warning only. -/
theorem claim_C4 (initOut creds jc e : String) :
    (initControlPlane { uploadConfig := Except.ok (), initCmd := Except.ok initOut
                        catAdminConf := Except.ok creds, tokenCreate := Except.ok jc
                        uploadCerts := Except.error e }).result =
      { success := true, kubeconfig := some creds, joinCommand := some jc
        controlPlaneJoinCommand := none, error := none } ∧
    (initControlPlane { uploadConfig := Except.ok (), initCmd := Except.ok initOut
                        catAdminConf := Except.ok creds, tokenCreate := Except.ok jc
                        uploadCerts := Except.error e }).warnings =
      ["获取 control-plane join 命令失败: " ++ e] :=
  ⟨rfl, rfl⟩

/-! ## Claim about the join rewrite -/

/-- Claim C3: the join-command rewrite is the exact deterministic
substitution of the first `kubeadm join` occurrence. -/
theorem claim_C3 :
    commandWithCriSocket "kubeadm join 10.0.0.1:6443 --token abc" =
      "sudo kubeadm join --cri-socket=/run/cri-dockerd.sock 10.0.0.1:6443 --token abc" := by
  rfl

/-! ## Claims about exec error reporting and credential priority -/

/-- Claim C5 counterexample: `execSSHInternal` (src/server/kube/ssh.ts) DOES
throw on command failure — a non-zero exit code rejects the promise instead
of being reported inside a returned ExecutionResult. -/
theorem claim_C5_counterexample :
    (execSSHInternal (ExecSSHEvent.closed "out" "err" 1)).isOk = false ∧
    execSSHInternal (ExecSSHEvent.closed "out" "err" 1) =
      Except.error ("命令执行失败，退出码 " ++ toString (1 : Int) ++ ": " ++ "err") :=
  ⟨rfl, rfl⟩

/-- Claim C5 (amended): `SSHClient.executeCommand` never throws — a non-zero
exit code is reported inside the returned ExecutionResult with
`success = false`, and a connection failure yields a distinguished
transport-error result; `execSSHInternal` in ssh.ts, by contrast, rejects on
a non-zero exit code with the code and stderr in the message. -/
theorem claim_C5 (out err msg : String) (code : Int) (hc : code ≠ 0) :
    executeCommand (ClientExecEvent.closed out err code) =
      { success := false, message := "执行失败，退出码: " ++ toString code
        stdout := out, stderr := err, exitCode := code } ∧
    executeCommand (ClientExecEvent.connError msg) =
      { success := false, message := "SSH连接失败: " ++ msg
        stdout := "", stderr := "", exitCode := -1 } ∧
    execSSHInternal (ExecSSHEvent.closed out err code) =
      Except.error ("命令执行失败，退出码 " ++ toString code ++ ": " ++ err) := by
  have hb : (code == 0) = false := by simpa using hc
  refine ⟨?_, rfl, ?_⟩
  · simp [executeCommand, hb]
  · simp [execSSHInternal, hb]

/-- Claim C5 witness: concrete command failure with exit code 1 and a
concrete connection failure. -/
theorem claim_C5_witness :
    executeCommand (ClientExecEvent.closed "o" "e" 1) =
      { success := false, message := "执行失败，退出码: " ++ toString (1 : Int)
        stdout := "o", stderr := "e", exitCode := 1 } ∧
    executeCommand (ClientExecEvent.connError "m") =
      { success := false, message := "SSH连接失败: " ++ "m"
        stdout := "", stderr := "", exitCode := -1 } ∧
    execSSHInternal (ExecSSHEvent.closed "o" "e" 1) =
      Except.error ("命令执行失败，退出码 " ++ toString (1 : Int) ++ ": " ++ "e") :=
  claim_C5 "o" "e" "m" 1 (by decide)

/-- Claim C6 counterexample: with both a password and key material supplied,
`createConnectionConfig` (src/server/kube/ssh.ts) selects the PASSWORD and
leaves the key unset, violating the key-material-first priority. -/
theorem claim_C6_counterexample :
    (createConnectionConfig { host := "h", port := none, username := "u"
                              password := some "pw", privateKey := some "key"
                              passphrase := none }).password = some "pw" ∧
    (createConnectionConfig { host := "h", port := none, username := "u"
                              password := some "pw", privateKey := some "key"
                              passphrase := none }).privateKey = none :=
  ⟨rfl, rfl⟩

/-- Claim C6 (amended): `SSHClient.buildConnectionConfig` selects by the
priority key-material > key-path > password, but `createConnectionConfig`
in ssh.ts gives the password priority over the key material. -/
theorem claim_C6 (ip user : String) (port : Nat) (auth : ClientAuthConfig)
    (readFile : String → String) (cfg : SSHConfig) :
    (optTruthy auth.sshPubKey = true →
      buildConnectionConfig ip port user auth readFile =
        Except.ok { host := ip, port := port, username := user, readyTimeout := 60000
                    keepaliveInterval := 10000, privateKey := auth.sshPubKey
                    password := none }) ∧
    (optTruthy auth.sshPubKey = false → optTruthy auth.sshPubKeyPath = true →
      buildConnectionConfig ip port user auth readFile =
        Except.ok { host := ip, port := port, username := user, readyTimeout := 60000
                    keepaliveInterval := 10000
                    privateKey := some (readFile (auth.sshPubKeyPath.getD ""))
                    password := none }) ∧
    (optTruthy auth.sshPubKey = false → optTruthy auth.sshPubKeyPath = false →
      optTruthy auth.sshPasswd = true →
      buildConnectionConfig ip port user auth readFile =
        Except.ok { host := ip, port := port, username := user, readyTimeout := 60000
                    keepaliveInterval := 10000, privateKey := none
                    password := auth.sshPasswd }) ∧
    (optTruthy cfg.password = true →
      (createConnectionConfig cfg).password = cfg.password ∧
      (createConnectionConfig cfg).privateKey = none) ∧
    (optTruthy cfg.password = false → optTruthy cfg.privateKey = true →
      (createConnectionConfig cfg).privateKey = cfg.privateKey ∧
      (createConnectionConfig cfg).password = none) := by
  refine ⟨?_, ?_, ?_, ?_, ?_⟩
  · intro h1
    simp [buildConnectionConfig, h1]
  · intro h1 h2
    simp [buildConnectionConfig, h1, h2]
  · intro h1 h2 h3
    simp [buildConnectionConfig, h1, h2, h3]
  · intro h1
    constructor <;> simp [createConnectionConfig, h1]
  · intro h1 h2
    cases hpp : optTruthy cfg.passphrase <;>
      constructor <;> simp [createConnectionConfig, h1, h2, hpp]

/-- Claim C6 witness: all three credentials supplied — the key material
wins in `buildConnectionConfig`. -/
theorem claim_C6_witness :
    buildConnectionConfig "1.2.3.4" 22 "ubuntu"
      { sshPubKey := some "KEY", sshPubKeyPath := some "/p", sshPasswd := some "pw" }
      (fun _ => "FILE") =
      Except.ok { host := "1.2.3.4", port := 22, username := "ubuntu", readyTimeout := 60000
                  keepaliveInterval := 10000, privateKey := some "KEY", password := none } :=
  (claim_C6 "1.2.3.4" "ubuntu" 22
    { sshPubKey := some "KEY", sshPubKeyPath := some "/p", sshPasswd := some "pw" }
    (fun _ => "FILE")
    { host := "h", port := none, username := "u"
      password := none, privateKey := none, passphrase := none }).1 (by decide)

/-! ## Claim about per-host fan-out -/

/-- Claim C9: `setupNodes` and `joinCluster` return one result per input
config in order, the i-th result names the i-th host, a failing host gets
`success = false` with its own message in its own slot, and a slot's result
depends only on that slot's own outcome (per-host isolation; both functions
are total, so no exception escapes). -/
theorem claim_C9 (envS : SSHConfig → Except String String)
    (envJ : SSHConfig → String → Except String String)
    (configs : List SSHConfig) (jc : String)
    (i : Nat) (ci : SSHConfig) (msg msgJ : String)
    (hci : configs[i]? = some ci) (hfail : envS ci = Except.error msg)
    (hfailJ : envJ ci (commandWithCriSocket jc) = Except.error msgJ) :
    (setupNodes envS configs).length = configs.length ∧
    (joinCluster envJ configs jc).length = configs.length ∧
    (∀ (j : Nat), ((setupNodes envS configs)[j]?).map SetupResult.host =
      (configs[j]?).map SSHConfig.host) ∧
    (∀ (j : Nat), ((joinCluster envJ configs jc)[j]?).map JoinResult.host =
      (configs[j]?).map SSHConfig.host) ∧
    (setupNodes envS configs)[i]? =
      some { host := ci.host, success := false, error := some msg } ∧
    (joinCluster envJ configs jc)[i]? =
      some { host := ci.host, success := false, error := some msgJ } ∧
    (∀ (envS2 : SSHConfig → Except String String) (j : Nat) (cj : SSHConfig),
      configs[j]? = some cj → envS2 cj = envS cj →
      (setupNodes envS2 configs)[j]? = (setupNodes envS configs)[j]?) ∧
    (∀ (envJ2 : SSHConfig → String → Except String String) (j : Nat) (cj : SSHConfig),
      configs[j]? = some cj →
      envJ2 cj (commandWithCriSocket jc) = envJ cj (commandWithCriSocket jc) →
      (joinCluster envJ2 configs jc)[j]? = (joinCluster envJ configs jc)[j]?) := by
  refine ⟨by simp [setupNodes], by simp [joinCluster], ?_, ?_, ?_, ?_, ?_, ?_⟩
  · intro j
    simp only [setupNodes, List.getElem?_map, Option.map_map]
    cases hj : configs[j]? with
    | none => rfl
    | some c =>
        cases hc : envS c <;> simp [hc, Function.comp]
  · intro j
    simp only [joinCluster, List.getElem?_map, Option.map_map]
    cases hj : configs[j]? with
    | none => rfl
    | some c =>
        cases hc : envJ c (commandWithCriSocket jc) <;> simp [hc, Function.comp]
  · simp [setupNodes, List.getElem?_map, hci, hfail]
  · simp [joinCluster, List.getElem?_map, hci, hfailJ]
  · intro envS2 j cj hcj hagree
    simp [setupNodes, List.getElem?_map, hcj, hagree]
  · intro envJ2 j cj hcj hagree
    simp [joinCluster, List.getElem?_map, hcj, hagree]

/-- Claim C9 witness: two hosts, the first one failing with message `bad`
during setup and `badj` during join. -/
theorem claim_C9_witness :
    (setupNodes
      (fun c => if c.host == "h0" then Except.error "bad" else Except.ok "")
      [{ host := "h0", port := none, username := "u"
         password := none, privateKey := none, passphrase := none },
       { host := "h1", port := none, username := "u"
         password := none, privateKey := none, passphrase := none }])[0]? =
      some { host := "h0", success := false, error := some "bad" } ∧
    (joinCluster
      (fun c _ => if c.host == "h0" then Except.error "badj" else Except.ok "")
      [{ host := "h0", port := none, username := "u"
         password := none, privateKey := none, passphrase := none },
       { host := "h1", port := none, username := "u"
         password := none, privateKey := none, passphrase := none }]
      "jc")[0]? =
      some { host := "h0", success := false, error := some "badj" } :=
  ⟨(claim_C9
      (fun c => if c.host == "h0" then Except.error "bad" else Except.ok "")
      (fun c _ => if c.host == "h0" then Except.error "badj" else Except.ok "")
      [{ host := "h0", port := none, username := "u"
         password := none, privateKey := none, passphrase := none },
       { host := "h1", port := none, username := "u"
         password := none, privateKey := none, passphrase := none }]
      "jc" 0
      { host := "h0", port := none, username := "u"
        password := none, privateKey := none, passphrase := none }
      "bad" "badj" rfl rfl rfl).2.2.2.2.1,
   (claim_C9
      (fun c => if c.host == "h0" then Except.error "bad" else Except.ok "")
      (fun c _ => if c.host == "h0" then Except.error "badj" else Except.ok "")
      [{ host := "h0", port := none, username := "u"
         password := none, privateKey := none, passphrase := none },
       { host := "h1", port := none, username := "u"
         password := none, privateKey := none, passphrase := none }]
      "jc" 0
      { host := "h0", port := none, username := "u"
        password := none, privateKey := none, passphrase := none }
      "bad" "badj" rfl rfl rfl).2.2.2.2.2.1⟩

/-! ## Claim about getNodes -/

/-- Claim C10 counterexample: a node carrying the control-plane role label
with the conventional EMPTY value is classified as a worker — the source
tests the label value for truthiness, so a present-but-empty label counts
as absent, contradicting "worker exactly when neither label is present". -/
theorem claim_C10_counterexample :
    (nodeStatusOf { name := some "n1"
                    labels := [("node-role.kubernetes.io/control-plane", "")]
                    conditions := [], kubeletVersion := none
                    addresses := [] }).roles = ["worker"] ∧
    [("node-role.kubernetes.io/control-plane", "")].lookup
      "node-role.kubernetes.io/control-plane" = some "" :=
  ⟨rfl, rfl⟩

/-- Claim C10 (amended): every NodeStatus produced by `getNodes` has status
`Ready` or `NotReady` (`Ready` iff the node's first `Ready` condition has
status `True`), a non-empty roles list, and contains `worker` exactly when
neither the control-plane nor the master role label is present WITH A
NON-EMPTY VALUE. -/
theorem claim_C10 (items : List K8sNode) (node : K8sNode) :
    (getNodes items).length = items.length ∧
    (∀ (j : Nat), (getNodes items)[j]? = (items[j]?).map nodeStatusOf) ∧
    ((nodeStatusOf node).status = "Ready" ∨ (nodeStatusOf node).status = "NotReady") ∧
    ((nodeStatusOf node).status = "Ready" ↔
      (node.conditions.find? fun c => c.type == "Ready").map NodeCondition.status =
        some "True") ∧
    (nodeStatusOf node).roles ≠ [] ∧
    ((nodeStatusOf node).roles.contains "worker" = true ↔
      (labelTruthy node.labels "node-role.kubernetes.io/control-plane" = false ∧
       labelTruthy node.labels "node-role.kubernetes.io/master" = false)) := by
  refine ⟨by simp [getNodes], fun j => by simp [getNodes], ?_, ?_, ?_, ?_⟩
  · cases hr : node.conditions.find? fun c => c.type == "Ready" with
    | none => simp [nodeStatusOf, hr]
    | some c =>
        by_cases hcs : c.status == "True" <;> simp [nodeStatusOf, hr, hcs]
  · cases hr : node.conditions.find? fun c => c.type == "Ready" with
    | none => simp [nodeStatusOf, hr]
    | some c =>
        by_cases hcs : c.status = "True"
        · simp [nodeStatusOf, hr, hcs]
        · have hb : (c.status == "True") = false := by simpa using hcs
          simp [nodeStatusOf, hr, hb, hcs]
  · cases hb1 : labelTruthy node.labels "node-role.kubernetes.io/control-plane" <;>
      cases hb2 : labelTruthy node.labels "node-role.kubernetes.io/master" <;>
      simp [nodeStatusOf, hb1, hb2]
  · cases hb1 : labelTruthy node.labels "node-role.kubernetes.io/control-plane" <;>
      cases hb2 : labelTruthy node.labels "node-role.kubernetes.io/master" <;>
      simp [nodeStatusOf, hb1, hb2]

end KubeNodePool
